import Mathlib

/-!
# Verification of the sqlx compile-time query validation pipeline

Shallow embedding of the query-macro pipeline of the repository:
* `src/sqlx-macros/src/query_macros/data.rs` — `QueryData`, `QueryData::from_db`
  (URL-scheme dispatch under feature gating), `describe_query` (the describe
  adapter), and the offline cache codec `QueryData::to_file` / `QueryData::from_file`.
* `src/sqlx-macros/src/query_macros/input.rs` — `QueryMacroInput`, its `Parse`
  implementation, and `describe_validate`.

Rust `Result<T, E>` with string-message errors becomes `Except String T`;
machine-level aspects (async I/O, the actual network connection, serde_json's
byte-level rendering) are collaborator boundaries: the embedding keeps the
exact values and message strings the repository code computes on either side
of those boundaries.
-/

namespace Sqlx

/-! ## Data model (data.rs / sqlx-core describe) -/

/-- `Describe::result_columns` element: `name: Option<String>`,
`type_info: Option<TypeInfo>` (a backend type modelled by its display string),
`non_null: Option<bool>`. -/
structure ResultColumn where
  name : Option String
  type_info : Option String
  non_null : Option Bool
  deriving DecidableEq, Repr

/-- The backend's raw describe result: `param_types: Vec<Option<TypeId>>`
(type ids modelled as `Nat`) and `result_columns`. -/
structure DescribeResult where
  param_types : List (Option Nat)
  result_columns : List ResultColumn
  deriving DecidableEq, Repr

/-- The `DatabaseExt` capability of the originating backend:
`param_type_for_id`, `return_type_for_id`, `get_feature_gate`. -/
structure DatabaseExt where
  param_type_for_id : Nat → Option String
  return_type_for_id : String → Option String
  get_feature_gate : String → Option String

/-- `QueryData` from data.rs: the portable query descriptor. -/
structure QueryData where
  query : String
  input_types : List (Option String)
  outputs : List (String × String)
  deriving DecidableEq, Repr

/-! ## Describe adapter (`describe_query` in data.rs) -/

/-- Embedding of the `DisplayColumn` `Display` impl in data.rs: the zero-based
index is converted to a 1-based number; a known name is shown `{:?}`-quoted. -/
def displayColumn (idx : Nat) (name : Option String) : String :=
  let num := idx + 1
  match name with
  | some n => "column #" ++ toString num ++ " (\"" ++ n ++ "\")"
  | none => "column #" ++ toString num

/-- The body of the closure mapped over `result_columns` in `describe_query`
(data.rs lines 110–168), for the column at zero-based enumeration index `i`. -/
def columnOutput (db : DatabaseExt) (i : Nat) (c : ResultColumn) :
    Except String (String × String) :=
  match c.name with
  | none => .error ("column at position " ++ toString i ++ " must have a name")
  | some name =>
    match c.type_info with
    | none =>
      .error ("database couldn't tell us the type of " ++ displayColumn i c.name ++
        "; this can happen for columns that are the result of an expression")
    | some type_info =>
      match db.return_type_for_id type_info with
      | none =>
        .error (match db.get_feature_gate type_info with
          | some feat =>
            "optional feature `" ++ feat ++ "` required for type " ++ type_info ++
              " of " ++ displayColumn i c.name
          | none =>
            "unsupported type " ++ type_info ++ " of " ++ displayColumn i c.name)
      | some ty =>
        let type_ := if c.non_null.getD false then "Option<" ++ ty ++ ">" else ty
        .ok (name, type_)

/-- `.iter().enumerate().map(...).collect::<Result<Vec<_>>>()` over the result
columns, starting the enumeration index at `i`. -/
def collectColumns (db : DatabaseExt) (i : Nat) :
    List ResultColumn → Except String (List (String × String))
  | [] => .ok []
  | c :: cs => do
    let o ← columnOutput db i c
    let os ← collectColumns db (i + 1) cs
    pure (o :: os)

/-- Embedding of `describe_query` (data.rs lines 95–176), taking the already
completed `conn.describe(query)` result as input (the network describe is the
collaborator boundary). `input_types` maps each `param_types[i]` through
`param_type_for_id` after the `?` early-`None` on a missing id; `outputs` runs
the per-column mapping, failing the whole call on the first column error. -/
def describe_query (db : DatabaseExt) (describe : DescribeResult) (query : String) :
    Except String QueryData :=
  let input_types := describe.param_types.map (fun p => p.bind db.param_type_for_id)
  match collectColumns db 0 describe.result_columns with
  | .error e => .error e
  | .ok outputs => .ok { query := query, input_types := input_types, outputs := outputs }

/-! ## URL-scheme dispatch (`QueryData::from_db` in data.rs) -/

/-- Outcome of the scheme match in `from_db`: either control proceeds into a
backend's `connect` + `describe_query` branch, or the match produces an error.
The three `cfg` feature flags become explicit booleans. -/
inductive FromDbStep where
  | connectSqlite
  | connectPostgres
  | connectMySql
  | failMsg (msg : String)
  deriving DecidableEq, Repr

/-- Error text of the `#[cfg(not(feature = "sqlite"))] "sqlite"` arm. -/
def sqliteFeatureMsg (url : String) : String :=
  "database URL " ++ url ++
    " has the scheme of a SQLite database but the `sqlite` feature of sqlx was not enabled"

/-- Error text of the `#[cfg(not(feature = "postgres"))]` arm. -/
def postgresFeatureMsg (url : String) : String :=
  "database URL " ++ url ++
    " has the scheme of a Postgres database but the `postgres` feature of sqlx was not enabled"

/-- Error text of the `#[cfg(not(feature = "mysql"))]` arm. -/
def mysqlFeatureMsg (url : String) : String :=
  "database URL " ++ url ++
    " has the scheme of a MySQL/MariaDB database but the `mysql` feature of sqlx was not enabled"

/-- Error text of the fallback `scheme =>` arm (`{:?}` quotes the scheme). -/
def unexpectedSchemeMsg (scheme url : String) : String :=
  "unexpected scheme \"" ++ scheme ++ "\" in database URL " ++ url

/-- Embedding of the `match db_url.scheme()` in `QueryData::from_db`
(data.rs lines 24–73). `scheme` is the parsed URL's scheme (URL parsing is the
`url` crate, a collaborator); `url` is the URL's display text; the booleans are
the compiled-in `sqlite`/`postgres`/`mysql` feature flags. -/
def from_db_dispatch (sqlite_on postgres_on mysql_on : Bool) (scheme url : String) :
    FromDbStep :=
  if scheme = "sqlite" then
    if sqlite_on then .connectSqlite else .failMsg (sqliteFeatureMsg url)
  else if scheme = "postgresql" ∨ scheme = "postgres" then
    if postgres_on then .connectPostgres else .failMsg (postgresFeatureMsg url)
  else if scheme = "mysql" ∨ scheme = "mariadb" then
    if mysql_on then .connectMySql else .failMsg (mysqlFeatureMsg url)
  else
    .failMsg (unexpectedSchemeMsg scheme url)

/-! ## Macro input parser (`Parse for QueryMacroInput` in input.rs)

The `syn` token stream is modelled by a list of tokens. Parsing an `Expr`, a
`Type`, a `LitStr` or a `LitBool` is `syn`'s work (a collaborator): each is one
token carrying its payload (expressions and types are opaque ids, a string
literal carries its text and its span, modelled as a `Nat`). `syn`'s own
failure messages are modelled by fixed strings naming what was expected. -/

/-- An opaque `syn::Expr`. -/
inductive Expr where
  | mk (id : Nat)
  deriving DecidableEq, Repr

/-- `QuerySrc` from input.rs. -/
inductive QuerySrc where
  | String (s : String)
  | File (s : String)
  deriving DecidableEq, Repr

/-- `DataSrc` from input.rs. -/
inductive DataSrc where
  | Env (s : String)
  | DbUrl (s : String)
  | File
  deriving DecidableEq, Repr

/-- `RecordType` from input.rs (the `Type` of `Given` is opaque). -/
inductive RecordType where
  | Given (t : Nat)
  | Generated
  deriving DecidableEq, Repr

/-- One token of the macro invocation's token stream. -/
inductive Token where
  | ident (s : String)
  | comma
  | eqSign
  | litStr (s : String) (sp : Nat)
  | exprArray (es : List Expr)
  | typeLit (t : Nat)
  | litBool (b : Bool)
  deriving DecidableEq, Repr

/-- `QueryMacroInput` from input.rs. `arg_names` are `syn` idents modelled by
their strings. (Note: the struct literal at input.rs line 133 omits the
`unchecked_output` field the struct declares; the embedding carries the parsed
local value for that field.) -/
structure QueryMacroInput where
  src : QuerySrc
  src_span : Nat
  data_src : DataSrc
  record_type : RecordType
  arg_names : List String
  arg_exprs : List Expr
  unchecked_output : Bool
  deriving DecidableEq, Repr

/-- The `let mut` locals that the `while` loop of `Parse::parse`
(input.rs lines 85–123) actually assigns to, plus `expect_comma`.
(`data_src` is initialized before the loop and never reassigned anywhere,
so it does not appear in the loop state.) -/
structure ParseState where
  query_src : Option (QuerySrc × Nat)
  args : Option (List Expr)
  record_type : RecordType
  unchecked_output : Bool
  expect_comma : Bool
  deriving DecidableEq, Repr

/-- One-to-one embedding of the `while !input.is_empty()` loop of
`Parse for QueryMacroInput` (input.rs lines 93–123):
* with `expect_comma` set, a head token that is not `,` is rejected with
  "expected `,`" — but a `,` head is never consumed, so it falls through to
  the `Ident` parse, which rejects it ("expected identifier");
* after the key ident, a peeked `=` is rejected with "expected `=`";
* each recognized key parses its literal and assigns the matching local;
* an unrecognized key fails with "unexpected input key". -/
def parseLoop (st : ParseState) : List Token → Except String ParseState
  | [] => .ok st
  | t :: rest =>
    if st.expect_comma ∧ t ≠ Token.comma then .error "expected `,`"
    else
      match t with
      | .ident key =>
        if (match rest with | Token.eqSign :: _ => true | _ => false) then
          .error "expected `=`"
        else if key = "source" then
          match rest with
          | .litStr s sp :: rest2 =>
            parseLoop { st with query_src := some (.String s, sp), expect_comma := true } rest2
          | _ => .error "expected string literal"
        else if key = "source_file" then
          match rest with
          | .litStr s sp :: rest2 =>
            parseLoop { st with query_src := some (.File s, sp), expect_comma := true } rest2
          | _ => .error "expected string literal"
        else if key = "args" then
          match rest with
          | .exprArray es :: rest2 =>
            parseLoop { st with args := some es, expect_comma := true } rest2
          | _ => .error "expected expression array"
        else if key = "record_type" then
          match rest with
          | .typeLit ty :: rest2 =>
            parseLoop { st with record_type := .Given ty, expect_comma := true } rest2
          | _ => .error "expected type"
        else if key = "unchecked_output" then
          match rest with
          | .litBool b :: rest2 =>
            parseLoop { st with unchecked_output := b, expect_comma := true } rest2
          | _ => .error "expected boolean literal"
        else .error "unexpected input key"
      | _ => .error "expected identifier"

/-- Embedding of `Parse for QueryMacroInput` (input.rs lines 83–142):
initialize the locals (`data_src = DataSrc::Env("DATABASE_URL")` is set once
here and never touched again), run the loop, then require a query source and
synthesize `arg_names = arg0..arg{n-1}` from the `args` list. -/
def parseQueryMacroInput (ts : List Token) : Except String QueryMacroInput :=
  let data_src : DataSrc := .Env "DATABASE_URL"
  match parseLoop ⟨none, none, .Generated, false, false⟩ ts with
  | .error e => .error e
  | .ok st =>
    match st.query_src with
    | none => .error "expected `source` or `source_file` key"
    | some (src, src_span) =>
      let arg_exprs := st.args.getD []
      let arg_names := (List.range arg_exprs.length).map (fun i => "arg" ++ toString i)
      .ok { src := src, src_span := src_span, data_src := data_src,
            record_type := st.record_type, arg_names := arg_names,
            arg_exprs := arg_exprs, unchecked_output := st.unchecked_output }

/-! ## Argument count validator (`describe_validate` in input.rs) -/

/-- Embedding of `QueryMacroInput::describe_validate` (input.rs lines 58–80),
taking the already completed `conn.describe(source)` result: compare the
declared `arg_names` count with the described parameter count and either fail
with the exact message or return the describe result unchanged. -/
def describe_validate (arg_names : List String) (d : DescribeResult) :
    Except String DescribeResult :=
  if arg_names.length ≠ d.param_types.length then
    .error ("expected " ++ toString d.param_types.length ++ " parameters, got " ++
      toString arg_names.length)
  else .ok d

/-! ## Offline cache codec (`QueryData::to_file` / `QueryData::from_file`)

`to_file` is `serde_json::to_writer(File::create(path), self)`; `from_file` is
`serde_json::from_reader(File::open(path))`. The file-handle plumbing and
serde_json's byte-level rendering of a JSON value are collaborators; the
repository's contribution is the `derive(Serialize, Deserialize)` mapping of
`QueryData` to and from a JSON value, embedded here over a JSON value type.
Note `from_file(path, query)` never reads its `query` parameter. -/

/-- A JSON value (the fragment serde_json produces for `QueryData`). -/
inductive Json where
  | null
  | jstr (s : String)
  | jarr (xs : List Json)
  | jobj (fields : List (String × Json))

/-- serde: `Option<String>` serializes as `null` / the string. -/
def encodeOptString : Option String → Json
  | none => .null
  | some s => .jstr s

/-- serde: a `(String, String)` tuple serializes as a two-element array. -/
def encodeOutput : String × String → Json
  | (a, b) => .jarr [.jstr a, .jstr b]

/-- serde derive for `QueryData`: a JSON object with the fields in declaration
order `query`, `input_types`, `outputs`. -/
def encodeQueryData (d : QueryData) : Json :=
  .jobj [("query", .jstr d.query),
         ("input_types", .jarr (d.input_types.map encodeOptString)),
         ("outputs", .jarr (d.outputs.map encodeOutput))]

/-- serde: deserialize `Option<String>`. -/
def decodeOptString : Json → Except String (Option String)
  | .null => .ok none
  | .jstr s => .ok (some s)
  | _ => .error "invalid type: expected string or null"

/-- serde: deserialize a `(String, String)` tuple. -/
def decodeOutput : Json → Except String (String × String)
  | .jarr [.jstr a, .jstr b] => .ok (a, b)
  | _ => .error "invalid type: expected a tuple of size 2"

/-- serde: look a field up in a JSON object. -/
def getField (fields : List (String × Json)) (k : String) : Except String Json :=
  match fields.find? (fun p => p.1 == k) with
  | some p => .ok p.2
  | none => .error ("missing field `" ++ k ++ "`")

/-- serde: deserialize a `String` field. -/
def decodeString : Json → Except String String
  | .jstr s => .ok s
  | _ => .error "invalid type: expected string"

/-- serde: deserialize a sequence elementwise, failing on the first bad
element. -/
def decodeElems (f : Json → Except String α) : List Json → Except String (List α)
  | [] => .ok []
  | x :: xs => do
    let a ← f x
    let as ← decodeElems f xs
    pure (a :: as)

/-- serde: deserialize a JSON array elementwise. -/
def decodeArray (f : Json → Except String α) : Json → Except String (List α)
  | .jarr xs => decodeElems f xs
  | _ => .error "invalid type: expected array"

/-- serde derive: deserialize a `QueryData` from a JSON value. -/
def decodeQueryData (j : Json) : Except String QueryData :=
  match j with
  | .jobj fields => do
    let query ← getField fields "query" >>= decodeString
    let input_types ← getField fields "input_types" >>= decodeArray decodeOptString
    let outputs ← getField fields "outputs" >>= decodeArray decodeOutput
    pure { query := query, input_types := input_types, outputs := outputs }
  | _ => .error "invalid type: expected struct QueryData"

/-- `QueryData::to_file` (data.rs lines 85–92), at the JSON-value boundary:
serialize `self`. -/
def to_file (d : QueryData) : Json :=
  encodeQueryData d

/-- `QueryData::from_file(path, query)` (data.rs lines 77–83), at the
JSON-value boundary: deserialize the file's content. The `query` parameter is
bound by the Rust signature and never used by the body, exactly as in the
source. -/
def from_file (content : Json) (query : String) : Except String QueryData :=
  decodeQueryData content

/-! ## Shared sample values and helper lemmas -/

/-- A sample backend capability: every parameter id maps to `"i64"`, the type
info `"INT4"` maps to `"i32"`, nothing is feature-gated. -/
def sampleDb : DatabaseExt :=
  ⟨fun _ => some "i64", fun t => if t = "INT4" then some "i32" else none, fun _ => none⟩

/-- A sample describe result: params `[Some 1, None]`, one named `INT4` column
described as nullable (`non_null = Some false`). -/
def sampleDescribe : DescribeResult :=
  ⟨[some 1, none], [⟨some "c", some "INT4", some false⟩]⟩

/-- The descriptor `describe_query` produces for `sampleDescribe`. -/
def sampleOut : QueryData :=
  ⟨"q", [some "i64", none], [("c", "i32")]⟩

/-- The parse result of the single pair `source "SELECT 1"` (span 7). -/
def sampleParsed : QueryMacroInput :=
  ⟨.String "SELECT 1", 7, .Env "DATABASE_URL", .Generated, [], [], false⟩

/-- Elementwise decoding undoes elementwise encoding. -/
theorem decodeElems_map {α : Type} (enc : α → Json) (dec : Json → Except String α)
    (h : ∀ a, dec (enc a) = .ok a) : ∀ xs : List α, decodeElems dec (xs.map enc) = .ok xs
  | [] => rfl
  | x :: xs => by
    simp [decodeElems, h x, decodeElems_map enc dec h xs, Bind.bind, Except.bind,
      Pure.pure, Except.pure]

/-- `Option<String>` decoding undoes its encoding. -/
theorem decodeOptString_encode (o : Option String) :
    decodeOptString (encodeOptString o) = .ok o := by cases o <;> rfl

/-- Output-pair decoding undoes its encoding. -/
theorem decodeOutput_encode (p : String × String) :
    decodeOutput (encodeOutput p) = .ok p := by cases p; rfl

/-! ## Claims -/

/-- C1: the spec claims `non_null == Some(true)` emits the mapped type name
unchanged and `Some(false)`/`None` emit a nullable wrapper. The code
(data.rs lines 161–165) does the opposite: `column.non_null.unwrap_or(false)`
selects the `Option<...>` wrapper, so a `NOT NULL` column with mapped type
`"i32"` is emitted as `"Option<i32>"` and a nullable or unknown column as plain
`"i32"`. This theorem evaluates `describe_query` at the claim's own scenario
inputs, exhibiting the inversion. -/
theorem c1_nullability_inversion :
    describe_query sampleDb ⟨[], [⟨some "c", some "INT4", some true⟩]⟩ "q" =
      .ok { query := "q", input_types := [], outputs := [("c", "Option<i32>")] } ∧
    describe_query sampleDb ⟨[], [⟨some "c", some "INT4", some false⟩]⟩ "q" =
      .ok { query := "q", input_types := [], outputs := [("c", "i32")] } ∧
    describe_query sampleDb ⟨[], [⟨some "c", some "INT4", none⟩]⟩ "q" =
      .ok { query := "q", input_types := [], outputs := [("c", "i32")] } :=
  ⟨rfl, rfl, rfl⟩

/-- C2: the spec claims every comma-separated sequence of recognized
`key literal` pairs with a `source` key and an `args` array parses
successfully. The loop (input.rs lines 93–123) checks via `peek` that a comma
follows a completed pair but never consumes it, so the subsequent
`input.parse::<Ident>()` hits the comma and fails: `source "SELECT $1",
args [a]` is rejected with the identifier error, and omitting the comma is
rejected by the `expect_comma` check; only single-pair inputs such as
`source "SELECT 1"` parse (third conjunct). -/
theorem c2_comma_separated_pairs_rejected :
    parseQueryMacroInput
      [.ident "source", .litStr "SELECT $1" 0, .comma, .ident "args", .exprArray [.mk 0]] =
      .error "expected identifier" ∧
    parseQueryMacroInput
      [.ident "source", .litStr "SELECT $1" 0, .ident "args", .exprArray [.mk 0]] =
      .error "expected `,`" ∧
    parseQueryMacroInput [.ident "source", .litStr "SELECT 1" 7] = .ok sampleParsed :=
  ⟨rfl, rfl, rfl⟩

/-- C3: the spec claims a first result column with `name = None` yields
"column at position 1 must have a name" (1-based). The code
(data.rs line 118) interpolates the raw zero-based `enumerate` index, yielding
"column at position 0 must have a name" — even though the adjacent
`DisplayColumn` helper (used by the other two column diagnostics) documents and
performs the 1-based conversion, as the second conjunct shows. -/
theorem c3_unnamed_column_position_zero_based :
    describe_query sampleDb ⟨[], [⟨none, some "INT4", some true⟩]⟩ "q" =
      .error "column at position 0 must have a name" ∧
    displayColumn 0 none = "column #1" :=
  ⟨rfl, rfl⟩

/-- C4: `describe_validate` fails iff the declared argument count differs from
the described parameter count, with the message "expected N parameters, got M"
where N is the described count and M the declared count; on matching counts it
returns the describe result unchanged. -/
theorem c4_describe_validate_arity (arg_names : List String) (d : DescribeResult) :
    (arg_names.length ≠ d.param_types.length →
      describe_validate arg_names d =
        .error ("expected " ++ toString d.param_types.length ++ " parameters, got " ++
          toString arg_names.length)) ∧
    (arg_names.length = d.param_types.length → describe_validate arg_names d = .ok d) ∧
    (∀ e, describe_validate arg_names d = .error e →
      arg_names.length ≠ d.param_types.length) := by
  refine ⟨fun h => ?_, fun h => ?_, fun e he hlen => ?_⟩
  · simp [describe_validate, h]
  · simp [describe_validate, h]
  · simp [describe_validate, hlen] at he

/-- C4 witness: the spec's arity-mismatch scenario — one declared argument
against two described parameters fails with "expected 2 parameters, got 1". -/
theorem c4_describe_validate_arity_witness :
    describe_validate ["arg0"] ⟨[none, none], []⟩ = .error "expected 2 parameters, got 1" :=
  (c4_describe_validate_arity ["arg0"] ⟨[none, none], []⟩).1 (by decide)

/-- C5: the offline cache codec round-trips every descriptor field-for-field
and order-preserving: decoding an encoded `QueryData` (for any `query`
argument passed to `from_file`) yields the original descriptor. -/
theorem c5_cache_roundtrip (d : QueryData) (query : String) :
    from_file (to_file d) query = .ok d := by
  obtain ⟨q, its, outs⟩ := d
  simp [from_file, to_file, encodeQueryData, decodeQueryData, getField, List.find?,
    decodeArray, decodeElems_map _ _ decodeOptString_encode,
    decodeElems_map _ _ decodeOutput_encode, decodeString, Bind.bind, Except.bind,
    Functor.map, Except.map, Pure.pure, Except.pure]

/-- C6: `from_db`'s scheme match (data.rs lines 24–73), for all feature-flag
configurations: each matched scheme connects when its backend feature is
compiled in and otherwise fails with the message naming that feature
(`sqlite`, `postgres`, `mysql`); any other scheme fails with the
"unexpected scheme" message, which embeds the offending scheme and differs
from every missing-feature message. The match is on exact (case-sensitive)
string equality as in the Rust `match`. -/
theorem c6_from_db_scheme_dispatch (s p m : Bool) (scheme url : String) :
    (scheme = "sqlite" → s = true →
      from_db_dispatch s p m scheme url = .connectSqlite) ∧
    (scheme = "sqlite" → s = false →
      from_db_dispatch s p m scheme url = .failMsg (sqliteFeatureMsg url)) ∧
    ((scheme = "postgresql" ∨ scheme = "postgres") → p = true →
      from_db_dispatch s p m scheme url = .connectPostgres) ∧
    ((scheme = "postgresql" ∨ scheme = "postgres") → p = false →
      from_db_dispatch s p m scheme url = .failMsg (postgresFeatureMsg url)) ∧
    ((scheme = "mysql" ∨ scheme = "mariadb") → m = true →
      from_db_dispatch s p m scheme url = .connectMySql) ∧
    ((scheme = "mysql" ∨ scheme = "mariadb") → m = false →
      from_db_dispatch s p m scheme url = .failMsg (mysqlFeatureMsg url)) ∧
    (scheme ≠ "sqlite" → scheme ≠ "postgresql" → scheme ≠ "postgres" →
      scheme ≠ "mysql" → scheme ≠ "mariadb" →
      from_db_dispatch s p m scheme url = .failMsg (unexpectedSchemeMsg scheme url)) ∧
    (∃ a b, sqliteFeatureMsg url = a ++ "sqlite" ++ b) ∧
    (∃ a b, postgresFeatureMsg url = a ++ "postgres" ++ b) ∧
    (∃ a b, mysqlFeatureMsg url = a ++ "mysql" ++ b) ∧
    (∃ a b, unexpectedSchemeMsg scheme url = a ++ scheme ++ b) ∧
    (∀ url', unexpectedSchemeMsg scheme url ≠ sqliteFeatureMsg url' ∧
      unexpectedSchemeMsg scheme url ≠ postgresFeatureMsg url' ∧
      unexpectedSchemeMsg scheme url ≠ mysqlFeatureMsg url') := by
  refine ⟨?_, ?_, ?_, ?_, ?_, ?_, ?_, ?_, ?_, ?_, ?_, ?_⟩
  · rintro rfl rfl; rfl
  · rintro rfl rfl; rfl
  · rintro (rfl | rfl) rfl <;> rfl
  · rintro (rfl | rfl) rfl <;> rfl
  · rintro (rfl | rfl) rfl <;> rfl
  · rintro (rfl | rfl) rfl <;> rfl
  · intro h1 h2 h3 h4 h5
    simp [from_db_dispatch, h1, h2, h3, h4, h5]
  · refine ⟨"database URL " ++ url ++ " has the scheme of a SQLite database but the `",
      "` feature of sqlx was not enabled", ?_⟩
    have lit : " has the scheme of a SQLite database but the `" ++ "sqlite" ++
        "` feature of sqlx was not enabled" =
        " has the scheme of a SQLite database but the `sqlite` feature of sqlx was not enabled" :=
      rfl
    simp only [sqliteFeatureMsg, String.append_assoc, ← lit]
  · refine ⟨"database URL " ++ url ++ " has the scheme of a Postgres database but the `",
      "` feature of sqlx was not enabled", ?_⟩
    have lit : " has the scheme of a Postgres database but the `" ++ "postgres" ++
        "` feature of sqlx was not enabled" =
        " has the scheme of a Postgres database but the `postgres` feature of sqlx was not enabled" :=
      rfl
    simp only [postgresFeatureMsg, String.append_assoc, ← lit]
  · refine ⟨"database URL " ++ url ++ " has the scheme of a MySQL/MariaDB database but the `",
      "` feature of sqlx was not enabled", ?_⟩
    have lit : " has the scheme of a MySQL/MariaDB database but the `" ++ "mysql" ++
        "` feature of sqlx was not enabled" =
        " has the scheme of a MySQL/MariaDB database but the `mysql` feature of sqlx was not enabled" :=
      rfl
    simp only [mysqlFeatureMsg, String.append_assoc, ← lit]
  · exact ⟨"unexpected scheme \"", "\" in database URL " ++ url, by
      simp only [unexpectedSchemeMsg, String.append_assoc]⟩
  · intro url'
    refine ⟨fun h => ?_, fun h => ?_, fun h => ?_⟩ <;>
      exact absurd (congrArg (fun t => t.data.headD ' ') h : ('u' : Char) = 'd') (by decide)

/-- C6 witness: with only the postgres feature off, the scheme `postgres`
fails with the message naming `postgres`; with it on, it connects; the unknown
scheme `oracle` takes the unexpected-scheme error. -/
theorem c6_from_db_scheme_dispatch_witness :
    from_db_dispatch true true true "postgres" "postgres://localhost/db" = .connectPostgres ∧
    from_db_dispatch true false true "postgres" "postgres://localhost/db" =
      .failMsg (postgresFeatureMsg "postgres://localhost/db") ∧
    from_db_dispatch true true true "oracle" "oracle://x" =
      .failMsg (unexpectedSchemeMsg "oracle" "oracle://x") :=
  ⟨(c6_from_db_scheme_dispatch true true true "postgres" "postgres://localhost/db").2.2.1
      (Or.inr rfl) rfl,
    (c6_from_db_scheme_dispatch true false true "postgres" "postgres://localhost/db").2.2.2.1
      (Or.inr rfl) rfl,
    (c6_from_db_scheme_dispatch true true true "oracle" "oracle://x").2.2.2.2.2.2.1
      (by decide) (by decide) (by decide) (by decide) (by decide)⟩

/-- C7: whenever `describe_query` succeeds, `input_types` is exactly
`param_types` mapped entrywise (in order, same length): a `None` parameter or
an id unmapped by `param_type_for_id` gives `None` — never an error — and a
mapped id gives its type name. -/
theorem c7_input_types_mapping (db : DatabaseExt) (d : DescribeResult) (q : String)
    (out : QueryData) (h : describe_query db d q = .ok out) :
    out.input_types = d.param_types.map (fun p => p.bind db.param_type_for_id) ∧
    out.input_types.length = d.param_types.length ∧
    ∀ i : Nat, out.input_types[i]? =
      (d.param_types[i]?).map (fun p : Option Nat => p.bind db.param_type_for_id) := by
  unfold describe_query at h
  cases hc : collectColumns db 0 d.result_columns <;> rw [hc] at h
  · exact absurd h (by simp)
  · injection h with h
    subst h
    refine ⟨rfl, by simp, fun i => ?_⟩
    simp [List.getElem?_map]

/-- C7 witness: on `sampleDescribe` (params `[Some 1, None]`), the descriptor's
`input_types` is the entrywise mapping `[Some "i64", None]`. -/
theorem c7_input_types_mapping_witness :
    sampleOut.input_types =
      sampleDescribe.param_types.map (fun p => p.bind sampleDb.param_type_for_id) :=
  (c7_input_types_mapping sampleDb sampleDescribe "q" sampleOut rfl).1

/-- C8: the spec claims an invocation supplying both `source` and
`source_file` parses successfully with the later key silently overwriting the
earlier. The assignments (input.rs lines 104–109) do overwrite `query_src`
(third conjunct, at the loop-state level with no separating comma pending) —
but a two-pair invocation can never reach them: with the required separating
comma the unconsumed comma breaks the `Ident` parse, and without it the
`expect_comma` check fires, so parsing always fails. -/
theorem c8_both_sources_rejected :
    parseQueryMacroInput
      [.ident "source", .litStr "a" 0, .comma, .ident "source_file", .litStr "b" 1] =
      .error "expected identifier" ∧
    parseQueryMacroInput
      [.ident "source", .litStr "a" 0, .ident "source_file", .litStr "b" 1] =
      .error "expected `,`" ∧
    parseLoop ⟨some (.String "a", 0), none, .Generated, false, false⟩
      [.ident "source_file", .litStr "b" 1] =
      .ok ⟨some (.File "b", 1), none, .Generated, false, true⟩ :=
  ⟨rfl, rfl, rfl⟩

/-- C9: `from_file` never reads its `query` parameter, so for one cache
content any two invocation query texts produce identical results — the cached
descriptor is not validated against the current query. -/
theorem c9_from_file_ignores_query (content : Json) (q1 q2 : String) :
    from_file content q1 = from_file content q2 :=
  rfl

/-- C10: every successfully parsed `QueryMacroInput` has
`data_src = Env("DATABASE_URL")`: the parser initializes it to that constant
and no recognized key ever assigns it. -/
theorem c10_data_src_always_env (ts : List Token) (q : QueryMacroInput)
    (h : parseQueryMacroInput ts = .ok q) : q.data_src = .Env "DATABASE_URL" := by
  simp only [parseQueryMacroInput] at h
  split at h
  · exact absurd h (by simp)
  · split at h
    · exact absurd h (by simp)
    · cases h
      rfl

/-- C10 witness: the single-pair input `source "SELECT 1"` parses and its
`data_src` is `Env "DATABASE_URL"`. -/
theorem c10_data_src_always_env_witness :
    parseQueryMacroInput [Token.ident "source", Token.litStr "SELECT 1" 7] = .ok sampleParsed ∧
    sampleParsed.data_src = DataSrc.Env "DATABASE_URL" :=
  ⟨rfl, c10_data_src_always_env [Token.ident "source", Token.litStr "SELECT 1" 7] sampleParsed rfl⟩

end Sqlx
